import Mathlib

/-
Verification of the company-fundamentals microservice
(src/app/main.py, src/app/fmp_client.py, src/app/schemas.py).

Shallow embedding notes.
* JSON scalar values are modelled by `Val` (strings and integers); a raw
  provider record (a JSON object) is an association list with unique keys,
  and `RawRecord.get` models Python dict.get (None when the key is absent).
* Python truthiness of a field value is `Val.truthy`; the Python expression
  `a or b` on two optional field values is `pyOr`.
* The upstream provider is an oracle `Upstream`: for each outgoing call it
  gives a latency (abstract time units) and an HTTP response (status code,
  body text, parsed JSON body).  `requests.get(url, params, timeout=10)`
  raises requests.exceptions.Timeout when the latency exceeds 10; that
  exception is not a RuntimeError, so the apps RuntimeError handler does
  not catch it and FastAPI turns it into a plain 500.
* pydantic models validate at construction time: a required `str` field
  given None raises a ValidationError (modelled by `PyExc.validationError`),
  which FastAPI also surfaces as a 500.  Present values are passed through.
* Each endpoint is a function from the oracle and the request inputs to an
  `Outcome` (the HTTP result) paired with the list of upstream calls it
  issued, in order.
-/

namespace Fmp

/-- A JSON scalar field value: a string or a number. -/
inductive Val where
  | str (s : String)
  | num (n : Int)
deriving DecidableEq, Repr

/-- Python truthiness of a field value: empty strings and zero are falsy. -/
def Val.truthy : Val → Bool
  | .str s => s ≠ ""
  | .num n => n ≠ 0

/-- A raw provider record: a JSON object as an association list (unique keys). -/
abbrev RawRecord := List (String × Val)

/-- Python dict.get: the value at a key, or None when absent. -/
def RawRecord.get (r : RawRecord) (k : String) : Option Val :=
  (r.find? (fun p => p.1 == k)).map (fun p => p.2)

/-- The Python expression `a or b` on two optional field values:
`b` when `a` is None or falsy, otherwise `a`. -/
def pyOr (a b : Option Val) : Option Val :=
  match a with
  | some v => if v.truthy then some v else b
  | none => b

/-- Python str.upper for the ASCII symbols the service handles: upper-case
every character. -/
def pyUpper (s : String) : String := String.mk (s.data.map Char.toUpper)

/-- An outgoing upstream call with its query parameters (apikey omitted). -/
inductive UpCall where
  | searchSymbol (query : String) (limit : Int) (exchange : String)
  | profile (symbol : String)
  | incomeStatement (symbol : String) (period : String) (limit : Int)
  | balanceSheet (symbol : String) (period : String) (limit : Int)
  | cashFlow (symbol : String) (period : String) (limit : Int)
deriving DecidableEq, Repr

/-- Whether a call is one of the three statement calls. -/
def UpCall.isStatementCall : UpCall → Bool
  | .incomeStatement _ _ _ => true
  | .balanceSheet _ _ _ => true
  | .cashFlow _ _ _ => true
  | _ => false

/-- Whether a call trace contains no statement call. -/
def noStatementCalls (trace : List UpCall) : Bool :=
  trace.all (fun c => ! c.isStatementCall)

/-- An HTTP response from the provider: status, body text, parsed JSON body
(a list of records; the parse of the body text). -/
structure HttpResp where
  status : Int
  text : String
  json : List RawRecord
deriving DecidableEq, Repr

/-- The upstream provider as an oracle: per call, a latency in abstract time
units and the response delivered when the client waits long enough. -/
structure Upstream where
  latency : UpCall → Nat
  response : UpCall → HttpResp

/-- requests Response.ok: True unless 400 <= status_code < 600. -/
def respOk (s : Int) : Bool := if 400 ≤ s ∧ s < 600 then false else true

/-- Python exceptions that can escape an endpoint body. -/
inductive PyExc where
  | httpException (status : Int) (detail : String)
  | runtimeError (msg : String)
  | requestsTimeout
  | validationError
deriving DecidableEq, Repr

/-- The HTTP result of handling one inbound request.
`clientError` comes from FastAPI handling of HTTPException or of request
parameter validation; `upstream502` is the registered RuntimeError handler;
`internal500` is FastAPI fallback for any other escaped exception. -/
inductive Outcome (α : Type) where
  | ok (body : α)
  | clientError (status : Int) (detail : String)
  | upstream502 (detail : String)
  | internal500
deriving DecidableEq, Repr

/-- The HTTP status code of an outcome (200 for an ok body). -/
def Outcome.statusCode {α : Type} : Outcome α → Int
  | .ok _ => 200
  | .clientError s _ => s
  | .upstream502 _ => 502
  | .internal500 => 500

/-- FastAPI exception dispatch: HTTPException keeps its status, RuntimeError
is caught by the registered handler and becomes 502, anything else (such as
requests.exceptions.Timeout or a pydantic ValidationError) becomes 500. -/
def dispatch {α : Type} : Except PyExc α → Outcome α
  | .ok a => .ok a
  | .error (.httpException s d) => .clientError s d
  | .error (.runtimeError m) => .upstream502 m
  | .error .requestsTimeout => .internal500
  | .error .validationError => .internal500

/-- The timeout argument passed to requests.get in FMPClient._get. -/
def requestsTimeoutSeconds : Nat := 10

/-- Python s[:n]: the first n characters of a string. -/
def pyTruncate (n : Nat) (s : String) : String := String.mk (s.data.take n)

/-- The message of the RuntimeError raised by FMPClient._get on a non-ok
status: f-string "FMP API error: {status_code} {text[:200]}". -/
def fmpErrorMessage (r : HttpResp) : String :=
  "FMP API error: " ++ toString r.status ++ " " ++ pyTruncate 200 r.text

/-- FMPClient._get: perform the GET with timeout 10; raise RuntimeError on a
non-ok status; return the parsed JSON body on success. -/
def FMPClient.httpGet (up : Upstream) (call : UpCall) :
    Except PyExc (List RawRecord) :=
  if requestsTimeoutSeconds < up.latency call then .error .requestsTimeout
  else
    let r := up.response call
    if respOk r.status then .ok r.json
    else .error (.runtimeError (fmpErrorMessage r))

/-- FMPClient.search_symbol with its fixed exchange filter. -/
def FMPClient.search_symbol (up : Upstream) (query : String) (limit : Int) :
    Except PyExc (List RawRecord) :=
  FMPClient.httpGet up (.searchSymbol query limit "NASDAQ,NYSE,AMEX")

/-- FMPClient.get_company_profile: the symbol is upper-cased before transmission. -/
def FMPClient.get_company_profile (up : Upstream) (symbol : String) :
    Except PyExc (List RawRecord) :=
  FMPClient.httpGet up (.profile (pyUpper symbol))

/-- FMPClient.get_income_statement. -/
def FMPClient.get_income_statement (up : Upstream) (symbol : String)
    (period : String) (limit : Int) : Except PyExc (List RawRecord) :=
  FMPClient.httpGet up (.incomeStatement (pyUpper symbol) period limit)

/-- FMPClient.get_balance_sheet. -/
def FMPClient.get_balance_sheet (up : Upstream) (symbol : String)
    (period : String) (limit : Int) : Except PyExc (List RawRecord) :=
  FMPClient.httpGet up (.balanceSheet (pyUpper symbol) period limit)

/-- FMPClient.get_cash_flow. -/
def FMPClient.get_cash_flow (up : Upstream) (symbol : String)
    (period : String) (limit : Int) : Except PyExc (List RawRecord) :=
  FMPClient.httpGet up (.cashFlow (pyUpper symbol) period limit)

/-- schemas.CompanySearchItem: symbol and name are required, the rest optional. -/
structure CompanySearchItem where
  symbol : Val
  name : Val
  exchange : Option Val
  currency : Option Val
deriving DecidableEq, Repr

/-- pydantic construction of a CompanySearchItem: a required field given
None raises a ValidationError; present values pass through. -/
def mkCompanySearchItem (symbol name exchange currency : Option Val) :
    Except PyExc CompanySearchItem :=
  match symbol, name with
  | some sy, some nm => .ok ⟨sy, nm, exchange, currency⟩
  | _, _ => .error .validationError

/-- schemas.CompanySearchResponse. -/
structure CompanySearchResponse where
  results : List CompanySearchItem
deriving DecidableEq, Repr

/-- The per-record mapping of the search endpoint body. -/
def searchItemOfRaw (item : RawRecord) : Except PyExc CompanySearchItem :=
  mkCompanySearchItem (item.get "symbol")
    (pyOr (item.get "name") (item.get "companyName"))
    (item.get "stockExchange") (item.get "currency")

/-- The accumulation loop of the search endpoint: build one item per raw
record, stopping at the first record whose construction raises. -/
def buildSearchItems : List RawRecord → Except PyExc (List CompanySearchItem)
  | [] => .ok []
  | r :: rest =>
    match searchItemOfRaw r with
    | .error e => .error e
    | .ok item =>
      match buildSearchItems rest with
      | .error e => .error e
      | .ok items => .ok (item :: items)

/-- GET /companies/search.  FastAPI first validates the query parameters
(q with min_length 1, limit in [1,50]); the endpoint then issues the search
call and maps each record. -/
def search_companies (up : Upstream) (q : String) (limit : Int) :
    Outcome CompanySearchResponse × List UpCall :=
  if ¬(1 ≤ q.length ∧ 1 ≤ limit ∧ limit ≤ 50) then
    (.clientError 422 "request validation failed", [])
  else
    let call := UpCall.searchSymbol q limit "NASDAQ,NYSE,AMEX"
    match FMPClient.search_symbol up q limit with
    | .error e => (dispatch (Except.error e : Except PyExc CompanySearchResponse), [call])
    | .ok raw =>
      match buildSearchItems raw with
      | .error e => (dispatch (Except.error e : Except PyExc CompanySearchResponse), [call])
      | .ok items => (.ok ⟨items⟩, [call])

/-- schemas.IncomeSnapshot. -/
structure IncomeSnapshot where
  revenue : Option Val
  netIncome : Option Val
deriving DecidableEq, Repr

/-- schemas.BalanceSheetSnapshot. -/
structure BalanceSheetSnapshot where
  totalAssets : Option Val
  totalLiabilities : Option Val
deriving DecidableEq, Repr

/-- schemas.CashFlowSnapshot. -/
structure CashFlowSnapshot where
  operatingCashFlow : Option Val
deriving DecidableEq, Repr

/-- schemas.CompanySnapshot: symbol is required, every other top field
optional; the three sub-records have only optional fields, so construction
never fails. -/
structure CompanySnapshot where
  symbol : String
  name : Option Val
  currency : Option Val
  exchange : Option Val
  asOf : Option Val
  income : IncomeSnapshot
  balanceSheet : BalanceSheetSnapshot
  cashFlow : CashFlowSnapshot
deriving DecidableEq, Repr

/-- The pure mapping part of the snapshot endpoint, given the first profile
record and the first-element-or-empty of each statement list. -/
def buildSnapshot (symbol : String)
    (profile income_raw balance_raw cashflow_raw : RawRecord) : CompanySnapshot :=
  { symbol := pyUpper symbol
  , name := pyOr (profile.get "companyName") (profile.get "name")
  , currency := profile.get "currency"
  , exchange := pyOr (profile.get "exchangeShortName") (profile.get "exchange")
  , asOf := pyOr (income_raw.get "date")
      (pyOr (balance_raw.get "date") (cashflow_raw.get "date"))
  , income :=
    { revenue := pyOr (income_raw.get "revenue") (income_raw.get "revenueTTM")
    , netIncome := pyOr (income_raw.get "netIncome") (income_raw.get "netIncomeTTM") }
  , balanceSheet :=
    { totalAssets := balance_raw.get "totalAssets"
    , totalLiabilities := balance_raw.get "totalLiabilities" }
  , cashFlow :=
    { operatingCashFlow := pyOr (cashflow_raw.get "operatingCashFlow")
        (cashflow_raw.get "operatingCashFlowTTM") } }

/-- GET /companies/{symbol}/snapshot: profile first (404 when empty), then
the three statement calls in order, then the pure mapping. -/
def company_snapshot (up : Upstream) (symbol : String) :
    Outcome CompanySnapshot × List UpCall :=
  let pCall := UpCall.profile (pyUpper symbol)
  let iCall := UpCall.incomeStatement (pyUpper symbol) "annual" 1
  let bCall := UpCall.balanceSheet (pyUpper symbol) "annual" 1
  let cCall := UpCall.cashFlow (pyUpper symbol) "annual" 1
  match FMPClient.get_company_profile up symbol with
  | .error e => (dispatch (Except.error e : Except PyExc CompanySnapshot), [pCall])
  | .ok profiles =>
    match profiles with
    | [] => (.clientError 404 "Company profile not found", [pCall])
    | profile :: _ =>
      match FMPClient.get_income_statement up symbol "annual" 1 with
      | .error e => (dispatch (Except.error e : Except PyExc CompanySnapshot), [pCall, iCall])
      | .ok income_list =>
        match FMPClient.get_balance_sheet up symbol "annual" 1 with
        | .error e =>
          (dispatch (Except.error e : Except PyExc CompanySnapshot), [pCall, iCall, bCall])
        | .ok balance_list =>
          match FMPClient.get_cash_flow up symbol "annual" 1 with
          | .error e =>
            (dispatch (Except.error e : Except PyExc CompanySnapshot),
             [pCall, iCall, bCall, cCall])
          | .ok cashflow_list =>
            (.ok (buildSnapshot symbol profile (income_list.headD [])
                (balance_list.headD []) (cashflow_list.headD [])),
             [pCall, iCall, bCall, cCall])

/-- schemas.HistoryPoint: date is required, the rest optional. -/
structure HistoryPoint where
  date : Val
  revenue : Option Val
  netIncome : Option Val
deriving DecidableEq, Repr

/-- pydantic construction of a HistoryPoint: date given None raises. -/
def mkHistoryPoint (date revenue netIncome : Option Val) :
    Except PyExc HistoryPoint :=
  match date with
  | some d => .ok ⟨d, revenue, netIncome⟩
  | none => .error .validationError

/-- The per-row mapping of the history endpoint: date, revenue, netIncome
read directly from the row, with no fallback. -/
def historyPointOfRaw (row : RawRecord) : Except PyExc HistoryPoint :=
  mkHistoryPoint (row.get "date") (row.get "revenue") (row.get "netIncome")

/-- The accumulation loop of the history endpoint. -/
def buildHistoryPoints : List RawRecord → Except PyExc (List HistoryPoint)
  | [] => .ok []
  | r :: rest =>
    match historyPointOfRaw r with
    | .error e => .error e
    | .ok pt =>
      match buildHistoryPoints rest with
      | .error e => .error e
      | .ok pts => .ok (pt :: pts)

/-- schemas.CompanyHistoryResponse. -/
structure CompanyHistoryResponse where
  symbol : String
  points : List HistoryPoint
deriving DecidableEq, Repr

/-- GET /companies/{symbol}/history: years validated to [1,20], one income
statement call with limit years, 404 on an empty list, else one point per row. -/
def company_history (up : Upstream) (symbol : String) (years : Int) :
    Outcome CompanyHistoryResponse × List UpCall :=
  if ¬(1 ≤ years ∧ years ≤ 20) then
    (.clientError 422 "request validation failed", [])
  else
    let call := UpCall.incomeStatement (pyUpper symbol) "annual" years
    match FMPClient.get_income_statement up symbol "annual" years with
    | .error e => (dispatch (Except.error e : Except PyExc CompanyHistoryResponse), [call])
    | .ok income_list =>
      match income_list with
      | [] => (.clientError 404 "No income statement data found", [call])
      | _ :: _ =>
        match buildHistoryPoints income_list with
        | .error e =>
          (dispatch (Except.error e : Except PyExc CompanyHistoryResponse), [call])
        | .ok points => (.ok ⟨pyUpper symbol, points⟩, [call])

/-
Spec-side definitions: the following three definitions are written from the
words of the specification, to be compared with the code-side mapping above.
-/

/-- Stated from the spec: the first non-empty (truthy) value in a priority
list of optional field values; absent when no listed value is non-empty. -/
def specFirstNonEmpty : List (Option Val) → Option Val
  | [] => none
  | a :: rest =>
    match a with
    | some v => if v.truthy then some v else specFirstNonEmpty rest
    | none => specFirstNonEmpty rest

/-- Stated from the spec: a primary field value, falling back to a secondary
field value when the primary is absent or the empty string. -/
def specFallback (primary secondary : Option Val) : Option Val :=
  match primary with
  | none => secondary
  | some v => if v = .str "" then secondary else some v

/-- Whether an optional field value is absent or a string (the shapes the
spec describes for name, exchange and date fields). -/
def isStrOpt : Option Val → Bool
  | some (.num _) => false
  | _ => true

/-- Stated from the spec: the HistoryPoint for one raw row, with date,
revenue and netIncome taken directly from the row and no fallback applied
(getD only totalises the required date, which the spec assumes present). -/
def specHistoryPoint (row : RawRecord) : HistoryPoint :=
  { date := (row.get "date").getD (.str "")
  , revenue := row.get "revenue"
  , netIncome := row.get "netIncome" }

/-- Stated from the spec: the SearchResult for one raw search record. -/
def specSearchItem (rec : RawRecord) : CompanySearchItem :=
  { symbol := (rec.get "symbol").getD (.str "")
  , name := (specFallback (rec.get "name") (rec.get "companyName")).getD (.str "")
  , exchange := rec.get "stockExchange"
  , currency := rec.get "currency" }

/-
Concrete provider oracles used to evaluate the theorems on closed inputs.
-/

/-- A profile record with the usual fields. -/
def profileRecordA : RawRecord :=
  [("companyName", .str "Apple Inc."), ("currency", .str "USD"),
   ("exchangeShortName", .str "NASDAQ")]

/-- A profile record that has only the fallback name and exchange fields. -/
def profileRecordB : RawRecord :=
  [("name", .str "Apple Inc."), ("exchange", .str "NASDAQ"),
   ("currency", .str "USD")]

/-- An oracle answering every call instantly with HTTP 200 and an empty list. -/
def upEmpty : Upstream :=
  { latency := fun _ => 0, response := fun _ => ⟨200, "[]", []⟩ }

/-- An oracle with a non-empty profile and empty statement lists. -/
def upProfileOnly : Upstream :=
  { latency := fun _ => 0
  , response := fun c =>
      match c with
      | .profile _ => ⟨200, "", [profileRecordA]⟩
      | _ => ⟨200, "", []⟩ }

/-- An oracle whose profile has only fallback name and exchange fields. -/
def upProfileFallback : Upstream :=
  { latency := fun _ => 0
  , response := fun c =>
      match c with
      | .profile _ => ⟨200, "", [profileRecordB]⟩
      | _ => ⟨200, "", []⟩ }

/-- An oracle with distinct dates on the three statements. -/
def upDates : Upstream :=
  { latency := fun _ => 0
  , response := fun c =>
      match c with
      | .profile _ => ⟨200, "", [profileRecordA]⟩
      | .incomeStatement _ _ _ => ⟨200, "", [[("date", .str "2023-12-31")]]⟩
      | .balanceSheet _ _ _ => ⟨200, "", [[("date", .str "2023-12-30")]]⟩
      | .cashFlow _ _ _ => ⟨200, "", [[("date", .str "2023-12-29")]]⟩
      | _ => ⟨200, "", []⟩ }

/-- Like `upDates` but the income record carries no date field. -/
def upDatesNoIncomeDate : Upstream :=
  { latency := fun _ => 0
  , response := fun c =>
      match c with
      | .profile _ => ⟨200, "", [profileRecordA]⟩
      | .incomeStatement _ _ _ => ⟨200, "", [[("revenue", .num 100)]]⟩
      | .balanceSheet _ _ _ => ⟨200, "", [[("date", .str "2023-12-30")]]⟩
      | .cashFlow _ _ _ => ⟨200, "", [[("date", .str "2023-12-29")]]⟩
      | _ => ⟨200, "", []⟩ }

/-- An oracle answering every call with HTTP 500. -/
def up500 : Upstream :=
  { latency := fun _ => 0
  , response := fun _ => ⟨500, "upstream exploded", []⟩ }

/-- An oracle whose every call takes 11 time units, past the 10 unit bound. -/
def upSlow : Upstream :=
  { latency := fun _ => 11, response := fun _ => ⟨200, "", []⟩ }

/-- An oracle whose search result record has a symbol but no name field. -/
def upNoName : Upstream :=
  { latency := fun _ => 0
  , response := fun c =>
      match c with
      | .searchSymbol _ _ _ => ⟨200, "", [[("symbol", .str "AAPL")]]⟩
      | _ => ⟨200, "", []⟩ }

/-- An oracle whose income history rows carry TTM-suffixed fields next to
(or instead of) the plain ones. -/
def upTTM : Upstream :=
  { latency := fun _ => 0
  , response := fun c =>
      match c with
      | .incomeStatement _ _ _ => ⟨200, "",
          [[("date", .str "2023-12-31"), ("revenue", .num 100),
            ("netIncome", .num 10), ("revenueTTM", .num 999),
            ("netIncomeTTM", .num 99)],
           [("date", .str "2022-12-31"), ("revenueTTM", .num 888)],
           [("date", .str "2021-12-31"), ("netIncome", .num 7)]]⟩
      | _ => ⟨200, "", []⟩ }

/-- An oracle whose search result is the record of the spec example:
companyName with no name field. -/
def upSearchExample : Upstream :=
  { latency := fun _ => 0
  , response := fun c =>
      match c with
      | .searchSymbol _ _ _ => ⟨200, "",
          [[("symbol", .str "AAPL"), ("companyName", .str "Apple Inc."),
            ("stockExchange", .str "NASDAQ"), ("currency", .str "USD")]]⟩
      | _ => ⟨200, "", []⟩ }

/-- A call whose latency is within the bound and whose status is ok,
delivering the given JSON body. -/
def callSucceeds (up : Upstream) (c : UpCall) (body : List RawRecord) : Prop :=
  up.latency c ≤ requestsTimeoutSeconds ∧
    respOk (up.response c).status = true ∧ (up.response c).json = body

/-
Shared helper lemmas about the client and the accumulation loops.
-/

theorem httpGet_ok {up : Upstream} {c : UpCall} {body : List RawRecord}
    (h : callSucceeds up c body) : FMPClient.httpGet up c = .ok body := by
  obtain ⟨h1, h2, h3⟩ := h
  simp [FMPClient.httpGet, Nat.not_lt.mpr h1, h2, h3]

theorem httpGet_fail {up : Upstream} {c : UpCall}
    (hlat : up.latency c ≤ requestsTimeoutSeconds)
    (hbad : respOk (up.response c).status = false) :
    FMPClient.httpGet up c =
      .error (.runtimeError (fmpErrorMessage (up.response c))) := by
  simp [FMPClient.httpGet, Nat.not_lt.mpr hlat, hbad]

theorem httpGet_timeout {up : Upstream} {c : UpCall}
    (hlat : requestsTimeoutSeconds < up.latency c) :
    FMPClient.httpGet up c = .error .requestsTimeout := by
  simp [FMPClient.httpGet, hlat]

theorem httpGet_cases (up : Upstream) (c : UpCall) :
    FMPClient.httpGet up c = .ok (up.response c).json ∨
      FMPClient.httpGet up c = .error .requestsTimeout ∨
      FMPClient.httpGet up c =
        .error (.runtimeError (fmpErrorMessage (up.response c))) := by
  by_cases hlat : requestsTimeoutSeconds < up.latency c
  · exact Or.inr (Or.inl (httpGet_timeout hlat))
  · rcases hok : respOk (up.response c).status with _ | _
    · exact Or.inr (Or.inr (httpGet_fail (Nat.not_lt.mp hlat) hok))
    · exact Or.inl (httpGet_ok ⟨Nat.not_lt.mp hlat, hok, rfl⟩)

theorem httpGet_no_timeout {up : Upstream} {c : UpCall}
    (hlat : up.latency c ≤ requestsTimeoutSeconds) :
    FMPClient.httpGet up c = .ok (up.response c).json ∨
      FMPClient.httpGet up c =
        .error (.runtimeError (fmpErrorMessage (up.response c))) := by
  rcases hok : respOk (up.response c).status with _ | _
  · exact Or.inr (httpGet_fail hlat hok)
  · exact Or.inl (httpGet_ok ⟨hlat, hok, rfl⟩)

theorem searchItemOfRaw_error {r : RawRecord} {e : PyExc}
    (h : searchItemOfRaw r = .error e) : e = .validationError := by
  unfold searchItemOfRaw mkCompanySearchItem at h
  split at h
  · cases h
  · injection h with h2
    exact h2.symm

theorem buildSearchItems_error {raw : List RawRecord} {e : PyExc}
    (h : buildSearchItems raw = .error e) : e = .validationError := by
  induction raw with
  | nil => simp [buildSearchItems] at h
  | cons r rest ih =>
    unfold buildSearchItems at h
    rcases hr : searchItemOfRaw r with er | item
    · rw [hr] at h
      injection h with h2
      rw [← h2]
      exact searchItemOfRaw_error hr
    · rw [hr] at h
      rcases hrest : buildSearchItems rest with er2 | items
      · rw [hrest] at h
        injection h with h2
        rw [h2] at hrest
        exact ih hrest
      · rw [hrest] at h
        cases h

theorem historyPointOfRaw_error {r : RawRecord} {e : PyExc}
    (h : historyPointOfRaw r = .error e) : e = .validationError := by
  unfold historyPointOfRaw mkHistoryPoint at h
  split at h
  · cases h
  · injection h with h2
    exact h2.symm

theorem buildHistoryPoints_error {rows : List RawRecord} {e : PyExc}
    (h : buildHistoryPoints rows = .error e) : e = .validationError := by
  induction rows with
  | nil => simp [buildHistoryPoints] at h
  | cons r rest ih =>
    unfold buildHistoryPoints at h
    rcases hr : historyPointOfRaw r with er | pt
    · rw [hr] at h
      injection h with h2
      rw [← h2]
      exact historyPointOfRaw_error hr
    · rw [hr] at h
      rcases hrest : buildHistoryPoints rest with er2 | pts
      · rw [hrest] at h
        injection h with h2
        rw [h2] at hrest
        exact ih hrest
      · rw [hrest] at h
        cases h

theorem buildHistoryPoints_ok {rows : List RawRecord}
    (h : ∀ row ∈ rows, (RawRecord.get row "date").isSome = true) :
    buildHistoryPoints rows = .ok (rows.map specHistoryPoint) := by
  induction rows with
  | nil => rfl
  | cons r rest ih =>
    have hr := h r (List.mem_cons_self r rest)
    obtain ⟨d, hd⟩ := Option.isSome_iff_exists.mp hr
    have hrest := ih (fun row hrow => h row (List.mem_cons_of_mem r hrow))
    simp [buildHistoryPoints, historyPointOfRaw, mkHistoryPoint, hd, hrest,
      specHistoryPoint]

theorem pyOr_eq_specFallback {a : Option Val} (b : Option Val)
    (h : isStrOpt a = true) : pyOr a b = specFallback a b := by
  match a with
  | none => rfl
  | some (.str s) =>
    by_cases hs : s = "" <;> simp [pyOr, specFallback, Val.truthy, hs]
  | some (.num n) => simp [isStrOpt] at h

theorem searchItemOfRaw_ok {r : RawRecord}
    (hsym : (RawRecord.get r "symbol").isSome = true)
    (hname : isStrOpt (RawRecord.get r "name") = true)
    (hfb : (specFallback (RawRecord.get r "name")
      (RawRecord.get r "companyName")).isSome = true) :
    searchItemOfRaw r = .ok (specSearchItem r) := by
  obtain ⟨sy, hsy⟩ := Option.isSome_iff_exists.mp hsym
  have hor : pyOr (RawRecord.get r "name") (RawRecord.get r "companyName") =
      specFallback (RawRecord.get r "name") (RawRecord.get r "companyName") :=
    pyOr_eq_specFallback _ hname
  obtain ⟨nm, hnm⟩ := Option.isSome_iff_exists.mp hfb
  simp [searchItemOfRaw, mkCompanySearchItem, hsy, hor, hnm, specSearchItem]

theorem buildSearchItems_ok {raw : List RawRecord}
    (h : ∀ rec ∈ raw, (RawRecord.get rec "symbol").isSome = true ∧
      isStrOpt (RawRecord.get rec "name") = true ∧
      (specFallback (RawRecord.get rec "name")
        (RawRecord.get rec "companyName")).isSome = true) :
    buildSearchItems raw = .ok (raw.map specSearchItem) := by
  induction raw with
  | nil => rfl
  | cons r rest ih =>
    obtain ⟨h1, h2, h3⟩ := h r (List.mem_cons_self r rest)
    have hrest := ih (fun rec hrec => h rec (List.mem_cons_of_mem r hrec))
    simp [buildSearchItems, searchItemOfRaw_ok h1 h2 h3, hrest]

theorem snapshot_ok {up : Upstream} {symbol : String} {p : RawRecord}
    {ps li lb lc : List RawRecord}
    (hp : callSucceeds up (.profile (pyUpper symbol)) (p :: ps))
    (hi : callSucceeds up (.incomeStatement (pyUpper symbol) "annual" 1) li)
    (hb : callSucceeds up (.balanceSheet (pyUpper symbol) "annual" 1) lb)
    (hc : callSucceeds up (.cashFlow (pyUpper symbol) "annual" 1) lc) :
    company_snapshot up symbol =
      (Outcome.ok (buildSnapshot symbol p (li.headD []) (lb.headD [])
          (lc.headD [])),
        [UpCall.profile (pyUpper symbol),
         UpCall.incomeStatement (pyUpper symbol) "annual" 1,
         UpCall.balanceSheet (pyUpper symbol) "annual" 1,
         UpCall.cashFlow (pyUpper symbol) "annual" 1]) := by
  have h1 : FMPClient.get_company_profile up symbol = Except.ok (p :: ps) :=
    httpGet_ok hp
  have h2 : FMPClient.get_income_statement up symbol "annual" 1 = Except.ok li :=
    httpGet_ok hi
  have h3 : FMPClient.get_balance_sheet up symbol "annual" 1 = Except.ok lb :=
    httpGet_ok hb
  have h4 : FMPClient.get_cash_flow up symbol "annual" 1 = Except.ok lc :=
    httpGet_ok hc
  simp [company_snapshot, h1, h2, h3, h4]

theorem specFirstNonEmpty_one (c : Option Val)
    (h : specFirstNonEmpty [c] ≠ none) : c = specFirstNonEmpty [c] := by
  rcases c with _ | vc
  · simp [specFirstNonEmpty] at h
  · by_cases hc0 : vc.truthy
    · simp [specFirstNonEmpty, hc0]
    · simp [specFirstNonEmpty, hc0] at h

theorem pyOr_pair_spec (b c : Option Val)
    (h : specFirstNonEmpty [b, c] ≠ none) :
    pyOr b c = specFirstNonEmpty [b, c] := by
  rcases b with _ | vb
  · have h1 : specFirstNonEmpty [c] ≠ none := by
      simpa [specFirstNonEmpty] using h
    simpa [pyOr, specFirstNonEmpty] using specFirstNonEmpty_one c h1
  · by_cases hb0 : vb.truthy
    · simp [pyOr, specFirstNonEmpty, hb0]
    · have h1 : specFirstNonEmpty [c] ≠ none := by
        simpa [specFirstNonEmpty, hb0] using h
      simpa [pyOr, specFirstNonEmpty, hb0] using specFirstNonEmpty_one c h1

theorem pyOr_chain_spec (a b c : Option Val)
    (h : specFirstNonEmpty [a, b, c] ≠ none) :
    pyOr a (pyOr b c) = specFirstNonEmpty [a, b, c] := by
  rcases a with _ | va
  · have h1 : specFirstNonEmpty [b, c] ≠ none := by
      simpa [specFirstNonEmpty] using h
    simpa [pyOr, specFirstNonEmpty] using pyOr_pair_spec b c h1
  · by_cases ha0 : va.truthy
    · simp [pyOr, specFirstNonEmpty, ha0]
    · have h1 : specFirstNonEmpty [b, c] ≠ none := by
        simpa [specFirstNonEmpty, ha0] using h
      simpa [pyOr, specFirstNonEmpty, ha0] using pyOr_pair_spec b c h1

/-- C1: for every snapshot request whose upstream profile call returns an
empty list, the endpoint fails with HTTP 404 (the NotFoundError) and its
call trace contains none of the three statement calls. -/
theorem claim1_profile_empty_404_no_statement_calls (up : Upstream)
    (symbol : String) (h : callSucceeds up (.profile (pyUpper symbol)) []) :
    (company_snapshot up symbol).1 =
        Outcome.clientError 404 "Company profile not found" ∧
      noStatementCalls (company_snapshot up symbol).2 = true := by
  have h1 : FMPClient.get_company_profile up symbol = Except.ok [] :=
    httpGet_ok h
  constructor
  · simp [company_snapshot, h1]
  · simp [company_snapshot, h1, noStatementCalls, UpCall.isStatementCall]

theorem claim1_witness :
    (company_snapshot upEmpty "msft").1 =
        Outcome.clientError 404 "Company profile not found" ∧
      noStatementCalls (company_snapshot upEmpty "msft").2 = true :=
  claim1_profile_empty_404_no_statement_calls upEmpty "msft"
    ⟨by decide, by decide, rfl⟩

/-- C2: when the profile call returns a non-empty list and the three
statement calls succeed, the endpoint returns 200 even when some or all of
the statement lists are empty; each empty list is treated as an empty raw
record and leaves the corresponding snapshot sub-record all-absent. -/
theorem claim2_empty_statement_lists_are_absent_fields (up : Upstream)
    (symbol : String) (p : RawRecord) (ps li lb lc : List RawRecord)
    (hp : callSucceeds up (.profile (pyUpper symbol)) (p :: ps))
    (hi : callSucceeds up (.incomeStatement (pyUpper symbol) "annual" 1) li)
    (hb : callSucceeds up (.balanceSheet (pyUpper symbol) "annual" 1) lb)
    (hc : callSucceeds up (.cashFlow (pyUpper symbol) "annual" 1) lc) :
    (company_snapshot up symbol).1 =
        Outcome.ok (buildSnapshot symbol p (li.headD []) (lb.headD [])
          (lc.headD [])) ∧
      (li = [] →
        (buildSnapshot symbol p (li.headD []) (lb.headD []) (lc.headD [])).income
          = ⟨none, none⟩) ∧
      (lb = [] →
        (buildSnapshot symbol p (li.headD []) (lb.headD []) (lc.headD [])).balanceSheet
          = ⟨none, none⟩) ∧
      (lc = [] →
        (buildSnapshot symbol p (li.headD []) (lb.headD []) (lc.headD [])).cashFlow
          = ⟨none⟩) := by
  refine ⟨by rw [snapshot_ok hp hi hb hc], ?_, ?_, ?_⟩ <;> intro h0 <;>
    subst h0 <;> simp [buildSnapshot, RawRecord.get, pyOr]

theorem claim2_witness :
    (company_snapshot upProfileOnly "aapl").1 =
        Outcome.ok (buildSnapshot "aapl" profileRecordA [] [] []) ∧
      (buildSnapshot "aapl" profileRecordA [] [] []).income = ⟨none, none⟩ ∧
      (buildSnapshot "aapl" profileRecordA [] [] []).balanceSheet = ⟨none, none⟩ ∧
      (buildSnapshot "aapl" profileRecordA [] [] []).cashFlow = ⟨none⟩ := by
  have h := claim2_empty_statement_lists_are_absent_fields upProfileOnly "aapl"
    profileRecordA [] [] [] [] ⟨by decide, by decide, rfl⟩
    ⟨by decide, by decide, rfl⟩ ⟨by decide, by decide, rfl⟩
    ⟨by decide, by decide, rfl⟩
  exact ⟨h.1, h.2.1 rfl, h.2.2.1 rfl, h.2.2.2 rfl⟩

/-- C3: for every successful snapshot, asOf equals the first non-empty date
among the income, balance-sheet and cash-flow records, in that priority
order, whenever some such date is non-empty (the witness checks the two
concrete instances named by the spec). -/
theorem claim3_asOf_priority_order (up : Upstream) (symbol : String)
    (p : RawRecord) (ps li lb lc : List RawRecord)
    (hp : callSucceeds up (.profile (pyUpper symbol)) (p :: ps))
    (hi : callSucceeds up (.incomeStatement (pyUpper symbol) "annual" 1) li)
    (hb : callSucceeds up (.balanceSheet (pyUpper symbol) "annual" 1) lb)
    (hc : callSucceeds up (.cashFlow (pyUpper symbol) "annual" 1) lc)
    (hne : specFirstNonEmpty [RawRecord.get (li.headD []) "date",
        RawRecord.get (lb.headD []) "date",
        RawRecord.get (lc.headD []) "date"] ≠ none) :
    (company_snapshot up symbol).1 =
        Outcome.ok (buildSnapshot symbol p (li.headD []) (lb.headD [])
          (lc.headD [])) ∧
      (buildSnapshot symbol p (li.headD []) (lb.headD []) (lc.headD [])).asOf =
        specFirstNonEmpty [RawRecord.get (li.headD []) "date",
          RawRecord.get (lb.headD []) "date",
          RawRecord.get (lc.headD []) "date"] := by
  refine ⟨by rw [snapshot_ok hp hi hb hc], ?_⟩
  simpa [buildSnapshot] using pyOr_chain_spec _ _ _ hne

theorem claim3_witness :
    ((company_snapshot upDates "AAPL").1 =
        Outcome.ok (buildSnapshot "AAPL" profileRecordA
          [("date", .str "2023-12-31")] [("date", .str "2023-12-30")]
          [("date", .str "2023-12-29")]) ∧
      (buildSnapshot "AAPL" profileRecordA [("date", .str "2023-12-31")]
          [("date", .str "2023-12-30")] [("date", .str "2023-12-29")]).asOf =
        some (.str "2023-12-31")) ∧
    ((company_snapshot upDatesNoIncomeDate "AAPL").1 =
        Outcome.ok (buildSnapshot "AAPL" profileRecordA
          [("revenue", .num 100)] [("date", .str "2023-12-30")]
          [("date", .str "2023-12-29")]) ∧
      (buildSnapshot "AAPL" profileRecordA [("revenue", .num 100)]
          [("date", .str "2023-12-30")] [("date", .str "2023-12-29")]).asOf =
        some (.str "2023-12-30")) := by
  have h1 := claim3_asOf_priority_order upDates "AAPL" profileRecordA []
    [[("date", .str "2023-12-31")]] [[("date", .str "2023-12-30")]]
    [[("date", .str "2023-12-29")]] ⟨by decide, by decide, rfl⟩
    ⟨by decide, by decide, rfl⟩ ⟨by decide, by decide, rfl⟩
    ⟨by decide, by decide, rfl⟩ (by decide)
  have h2 := claim3_asOf_priority_order upDatesNoIncomeDate "AAPL"
    profileRecordA [] [[("revenue", .num 100)]] [[("date", .str "2023-12-30")]]
    [[("date", .str "2023-12-29")]] ⟨by decide, by decide, rfl⟩
    ⟨by decide, by decide, rfl⟩ ⟨by decide, by decide, rfl⟩
    ⟨by decide, by decide, rfl⟩ (by decide)
  exact ⟨⟨h1.1, h1.2.trans (by decide)⟩, ⟨h2.1, h2.2.trans (by decide)⟩⟩

/-- C9: whenever the profile call returns a non-empty list and the three
statement calls succeed so that a 200 snapshot is produced, its symbol
field equals the input symbol converted to upper case. -/
theorem claim9_snapshot_symbol_uppercased (up : Upstream) (symbol : String)
    (p : RawRecord) (ps li lb lc : List RawRecord)
    (hp : callSucceeds up (.profile (pyUpper symbol)) (p :: ps))
    (hi : callSucceeds up (.incomeStatement (pyUpper symbol) "annual" 1) li)
    (hb : callSucceeds up (.balanceSheet (pyUpper symbol) "annual" 1) lb)
    (hc : callSucceeds up (.cashFlow (pyUpper symbol) "annual" 1) lc) :
    (company_snapshot up symbol).1 =
        Outcome.ok (buildSnapshot symbol p (li.headD []) (lb.headD [])
          (lc.headD [])) ∧
      (buildSnapshot symbol p (li.headD []) (lb.headD []) (lc.headD [])).symbol =
        pyUpper symbol :=
  ⟨by rw [snapshot_ok hp hi hb hc], rfl⟩

theorem claim9_witness :
    (company_snapshot upProfileOnly "aApL").1 =
        Outcome.ok (buildSnapshot "aApL" profileRecordA [] [] []) ∧
      (buildSnapshot "aApL" profileRecordA [] [] []).symbol = "AAPL" := by
  have h := claim9_snapshot_symbol_uppercased upProfileOnly "aApL"
    profileRecordA [] [] [] [] ⟨by decide, by decide, rfl⟩
    ⟨by decide, by decide, rfl⟩ ⟨by decide, by decide, rfl⟩
    ⟨by decide, by decide, rfl⟩
  exact ⟨h.1, h.2.trans (by decide)⟩

/-- C10: for every successful snapshot whose profile name and exchange
fields are absent or strings, the name field is the profile companyName
falling back to name when companyName is absent or empty, and the exchange
field is exchangeShortName falling back to exchange. -/
theorem claim10_profile_name_exchange_fallback (up : Upstream)
    (symbol : String) (p : RawRecord) (ps li lb lc : List RawRecord)
    (hp : callSucceeds up (.profile (pyUpper symbol)) (p :: ps))
    (hi : callSucceeds up (.incomeStatement (pyUpper symbol) "annual" 1) li)
    (hb : callSucceeds up (.balanceSheet (pyUpper symbol) "annual" 1) lb)
    (hc : callSucceeds up (.cashFlow (pyUpper symbol) "annual" 1) lc)
    (hn : isStrOpt (RawRecord.get p "companyName") = true)
    (he : isStrOpt (RawRecord.get p "exchangeShortName") = true) :
    (company_snapshot up symbol).1 =
        Outcome.ok (buildSnapshot symbol p (li.headD []) (lb.headD [])
          (lc.headD [])) ∧
      (buildSnapshot symbol p (li.headD []) (lb.headD []) (lc.headD [])).name =
        specFallback (RawRecord.get p "companyName") (RawRecord.get p "name") ∧
      (buildSnapshot symbol p (li.headD []) (lb.headD []) (lc.headD [])).exchange =
        specFallback (RawRecord.get p "exchangeShortName")
          (RawRecord.get p "exchange") := by
  refine ⟨by rw [snapshot_ok hp hi hb hc], ?_, ?_⟩
  · simpa [buildSnapshot] using pyOr_eq_specFallback _ hn
  · simpa [buildSnapshot] using pyOr_eq_specFallback _ he

theorem claim10_witness :
    (company_snapshot upProfileFallback "aapl").1 =
        Outcome.ok (buildSnapshot "aapl" profileRecordB [] [] []) ∧
      (buildSnapshot "aapl" profileRecordB [] [] []).name =
        some (.str "Apple Inc.") ∧
      (buildSnapshot "aapl" profileRecordB [] [] []).exchange =
        some (.str "NASDAQ") := by
  have h := claim10_profile_name_exchange_fallback upProfileFallback "aapl"
    profileRecordB [] [] [] [] ⟨by decide, by decide, rfl⟩
    ⟨by decide, by decide, rfl⟩ ⟨by decide, by decide, rfl⟩
    ⟨by decide, by decide, rfl⟩ (by decide) (by decide)
  exact ⟨h.1, h.2.1.trans (by decide), h.2.2.trans (by decide)⟩

/-- C7: for every history request whose income-statement call returns a
non-empty list of rows carrying a date, the response is 200 with exactly
one point per returned row, in upstream order, with date, revenue and
netIncome taken directly from each row and no TTM fallback applied. -/
theorem claim7_history_rows_mapped_directly (up : Upstream) (symbol : String)
    (years : Int) (r0 : RawRecord) (rs : List RawRecord)
    (hy1 : 1 ≤ years) (hy2 : years ≤ 20)
    (hcall : callSucceeds up (.incomeStatement (pyUpper symbol) "annual" years)
      (r0 :: rs))
    (hdates : ∀ row ∈ r0 :: rs, (RawRecord.get row "date").isSome = true) :
    (company_history up symbol years).1 =
        Outcome.ok ⟨pyUpper symbol, (r0 :: rs).map specHistoryPoint⟩ ∧
      ((r0 :: rs).map specHistoryPoint).length = (r0 :: rs).length := by
  have h1 : FMPClient.get_income_statement up symbol "annual" years =
      Except.ok (r0 :: rs) := httpGet_ok hcall
  refine ⟨?_, List.length_map _ _⟩
  simp [company_history, hy1, hy2, h1, buildHistoryPoints_ok hdates]

theorem claim7_witness :
    (company_history upTTM "aapl" 3).1 =
        Outcome.ok ⟨"AAPL",
          [⟨.str "2023-12-31", some (.num 100), some (.num 10)⟩,
           ⟨.str "2022-12-31", none, none⟩,
           ⟨.str "2021-12-31", none, some (.num 7)⟩]⟩ := by
  have h := claim7_history_rows_mapped_directly upTTM "aapl" 3
    [("date", .str "2023-12-31"), ("revenue", .num 100),
     ("netIncome", .num 10), ("revenueTTM", .num 999),
     ("netIncomeTTM", .num 99)]
    [[("date", .str "2022-12-31"), ("revenueTTM", .num 888)],
     [("date", .str "2021-12-31"), ("netIncome", .num 7)]]
    (by decide) (by decide) ⟨by decide, by decide, rfl⟩ (by decide)
  exact h.1.trans (by decide)

/-- C8: for every search request whose upstream records each carry a symbol
and a usable name, the endpoint maps the records in upstream order to
SearchResults with symbol passed through, name from the name field falling
back to companyName when absent or empty, exchange from stockExchange and
currency from currency. -/
theorem claim8_search_record_mapping (up : Upstream) (q : String)
    (limit : Int) (raw : List RawRecord)
    (hq : 1 ≤ q.length) (hl1 : 1 ≤ limit) (hl2 : limit ≤ 50)
    (hcall : callSucceeds up (.searchSymbol q limit "NASDAQ,NYSE,AMEX") raw)
    (hwf : ∀ rec ∈ raw, (RawRecord.get rec "symbol").isSome = true ∧
      isStrOpt (RawRecord.get rec "name") = true ∧
      (specFallback (RawRecord.get rec "name")
        (RawRecord.get rec "companyName")).isSome = true) :
    (search_companies up q limit).1 = Outcome.ok ⟨raw.map specSearchItem⟩ := by
  have h1 : FMPClient.search_symbol up q limit = Except.ok raw :=
    httpGet_ok hcall
  simp [search_companies, hq, hl1, hl2, h1, buildSearchItems_ok hwf]

theorem claim8_witness :
    (search_companies upSearchExample "apple" 10).1 =
      Outcome.ok ⟨[⟨.str "AAPL", .str "Apple Inc.", some (.str "NASDAQ"),
        some (.str "USD")⟩]⟩ := by
  have h := claim8_search_record_mapping upSearchExample "apple" 10
    [[("symbol", .str "AAPL"), ("companyName", .str "Apple Inc."),
      ("stockExchange", .str "NASDAQ"), ("currency", .str "USD")]]
    (by decide) (by decide) (by decide) ⟨by decide, by decide, rfl⟩ (by decide)
  exact h.trans (by decide)

/-- C4: every client call completing with a non-success status raises the
upstream RuntimeError whose message carries the status code and a body
excerpt of at most 200 characters, and the endpoint handling the request
turns that error into a 502 whose detail is exactly that message (the first
conjunct shows the message contains the status code; the remaining
conjuncts cover the failing call positions of the three endpoints). -/
theorem claim4_upstream_http_error_becomes_502 :
    (∀ (up : Upstream) (c : UpCall),
      up.latency c ≤ requestsTimeoutSeconds →
      respOk (up.response c).status = false →
      FMPClient.httpGet up c =
          .error (.runtimeError (fmpErrorMessage (up.response c))) ∧
        (pyTruncate 200 (up.response c).text).length ≤ 200 ∧
        List.IsInfix (toString (up.response c).status).data
          (fmpErrorMessage (up.response c)).data) ∧
    (∀ (up : Upstream) (q : String) (limit : Int),
      1 ≤ q.length → 1 ≤ limit → limit ≤ 50 →
      up.latency (UpCall.searchSymbol q limit "NASDAQ,NYSE,AMEX") ≤
        requestsTimeoutSeconds →
      respOk (up.response (UpCall.searchSymbol q limit "NASDAQ,NYSE,AMEX")).status
        = false →
      (search_companies up q limit).1 = Outcome.upstream502
        (fmpErrorMessage
          (up.response (UpCall.searchSymbol q limit "NASDAQ,NYSE,AMEX")))) ∧
    (∀ (up : Upstream) (symbol : String) (years : Int),
      1 ≤ years → years ≤ 20 →
      up.latency (UpCall.incomeStatement (pyUpper symbol) "annual" years) ≤
        requestsTimeoutSeconds →
      respOk (up.response
        (UpCall.incomeStatement (pyUpper symbol) "annual" years)).status = false →
      (company_history up symbol years).1 = Outcome.upstream502
        (fmpErrorMessage
          (up.response (UpCall.incomeStatement (pyUpper symbol) "annual" years)))) ∧
    (∀ (up : Upstream) (symbol : String),
      up.latency (UpCall.profile (pyUpper symbol)) ≤ requestsTimeoutSeconds →
      respOk (up.response (UpCall.profile (pyUpper symbol))).status = false →
      (company_snapshot up symbol).1 = Outcome.upstream502
        (fmpErrorMessage (up.response (UpCall.profile (pyUpper symbol))))) ∧
    (∀ (up : Upstream) (symbol : String) (p : RawRecord) (ps : List RawRecord),
      callSucceeds up (.profile (pyUpper symbol)) (p :: ps) →
      up.latency (UpCall.incomeStatement (pyUpper symbol) "annual" 1) ≤
        requestsTimeoutSeconds →
      respOk (up.response
        (UpCall.incomeStatement (pyUpper symbol) "annual" 1)).status = false →
      (company_snapshot up symbol).1 = Outcome.upstream502
        (fmpErrorMessage
          (up.response (UpCall.incomeStatement (pyUpper symbol) "annual" 1)))) ∧
    (∀ (up : Upstream) (symbol : String) (p : RawRecord)
        (ps li : List RawRecord),
      callSucceeds up (.profile (pyUpper symbol)) (p :: ps) →
      callSucceeds up (.incomeStatement (pyUpper symbol) "annual" 1) li →
      up.latency (UpCall.balanceSheet (pyUpper symbol) "annual" 1) ≤
        requestsTimeoutSeconds →
      respOk (up.response
        (UpCall.balanceSheet (pyUpper symbol) "annual" 1)).status = false →
      (company_snapshot up symbol).1 = Outcome.upstream502
        (fmpErrorMessage
          (up.response (UpCall.balanceSheet (pyUpper symbol) "annual" 1)))) ∧
    (∀ (up : Upstream) (symbol : String) (p : RawRecord)
        (ps li lb : List RawRecord),
      callSucceeds up (.profile (pyUpper symbol)) (p :: ps) →
      callSucceeds up (.incomeStatement (pyUpper symbol) "annual" 1) li →
      callSucceeds up (.balanceSheet (pyUpper symbol) "annual" 1) lb →
      up.latency (UpCall.cashFlow (pyUpper symbol) "annual" 1) ≤
        requestsTimeoutSeconds →
      respOk (up.response
        (UpCall.cashFlow (pyUpper symbol) "annual" 1)).status = false →
      (company_snapshot up symbol).1 = Outcome.upstream502
        (fmpErrorMessage
          (up.response (UpCall.cashFlow (pyUpper symbol) "annual" 1)))) := by
  refine ⟨?_, ?_, ?_, ?_, ?_, ?_, ?_⟩
  · intro up c hlat hbad
    refine ⟨httpGet_fail hlat hbad, ?_, ?_⟩
    · simp only [pyTruncate, String.length_mk, List.length_take]
      exact Nat.min_le_left _ _
    · refine ⟨"FMP API error: ".data,
        (" " ++ pyTruncate 200 (up.response c).text).data, ?_⟩
      simp [fmpErrorMessage, String.data_append, List.append_assoc]
  · intro up q limit hq hl1 hl2 hlat hbad
    have h1 : FMPClient.search_symbol up q limit =
        Except.error (.runtimeError (fmpErrorMessage
          (up.response (UpCall.searchSymbol q limit "NASDAQ,NYSE,AMEX")))) :=
      httpGet_fail hlat hbad
    simp [search_companies, hq, hl1, hl2, h1, dispatch]
  · intro up symbol years hy1 hy2 hlat hbad
    have h1 : FMPClient.get_income_statement up symbol "annual" years =
        Except.error (.runtimeError (fmpErrorMessage
          (up.response (UpCall.incomeStatement (pyUpper symbol) "annual" years)))) :=
      httpGet_fail hlat hbad
    simp [company_history, hy1, hy2, h1, dispatch]
  · intro up symbol hlat hbad
    have h1 : FMPClient.get_company_profile up symbol =
        Except.error (.runtimeError (fmpErrorMessage
          (up.response (UpCall.profile (pyUpper symbol))))) :=
      httpGet_fail hlat hbad
    simp [company_snapshot, h1, dispatch]
  · intro up symbol p ps hp hlat hbad
    have h1 : FMPClient.get_company_profile up symbol = Except.ok (p :: ps) :=
      httpGet_ok hp
    have h2 : FMPClient.get_income_statement up symbol "annual" 1 =
        Except.error (.runtimeError (fmpErrorMessage
          (up.response (UpCall.incomeStatement (pyUpper symbol) "annual" 1)))) :=
      httpGet_fail hlat hbad
    simp [company_snapshot, h1, h2, dispatch]
  · intro up symbol p ps li hp hi hlat hbad
    have h1 : FMPClient.get_company_profile up symbol = Except.ok (p :: ps) :=
      httpGet_ok hp
    have h2 : FMPClient.get_income_statement up symbol "annual" 1 =
        Except.ok li := httpGet_ok hi
    have h3 : FMPClient.get_balance_sheet up symbol "annual" 1 =
        Except.error (.runtimeError (fmpErrorMessage
          (up.response (UpCall.balanceSheet (pyUpper symbol) "annual" 1)))) :=
      httpGet_fail hlat hbad
    simp [company_snapshot, h1, h2, h3, dispatch]
  · intro up symbol p ps li lb hp hi hb hlat hbad
    have h1 : FMPClient.get_company_profile up symbol = Except.ok (p :: ps) :=
      httpGet_ok hp
    have h2 : FMPClient.get_income_statement up symbol "annual" 1 =
        Except.ok li := httpGet_ok hi
    have h3 : FMPClient.get_balance_sheet up symbol "annual" 1 =
        Except.ok lb := httpGet_ok hb
    have h4 : FMPClient.get_cash_flow up symbol "annual" 1 =
        Except.error (.runtimeError (fmpErrorMessage
          (up.response (UpCall.cashFlow (pyUpper symbol) "annual" 1)))) :=
      httpGet_fail hlat hbad
    simp [company_snapshot, h1, h2, h3, h4, dispatch]

theorem claim4_witness :
    (search_companies up500 "apple" 10).1 =
        Outcome.upstream502 "FMP API error: 500 upstream exploded" ∧
      (company_snapshot up500 "AAPL").1 =
        Outcome.upstream502 "FMP API error: 500 upstream exploded" ∧
      (company_history up500 "AAPL" 5).1 =
        Outcome.upstream502 "FMP API error: 500 upstream exploded" ∧
      List.IsInfix (toString (500 : Int)).data
        "FMP API error: 500 upstream exploded".data := by
  refine ⟨?_, ?_, ?_, ?_⟩
  · exact (claim4_upstream_http_error_becomes_502.2.1 up500 "apple" 10
      (by decide) (by decide) (by decide) (by decide) (by decide)).trans
      (by decide)
  · exact (claim4_upstream_http_error_becomes_502.2.2.2.1 up500 "AAPL"
      (by decide) (by decide)).trans (by decide)
  · exact (claim4_upstream_http_error_becomes_502.2.2.1 up500 "AAPL" 5
      (by decide) (by decide) (by decide) (by decide)).trans (by decide)
  · exact ⟨"FMP API error: ".data, " upstream exploded".data, by decide⟩

/-- C5 counterexample: with every upstream call taking 11 time units, past
the 10 unit bound, the snapshot endpoint responds 500, not 502: the
requests timeout exception is not a RuntimeError, so the registered 502
handler never sees it. -/
theorem claim5_counterexample :
    (company_snapshot upSlow "AAPL").1 = Outcome.internal500 ∧
      ¬ Outcome.statusCode (company_snapshot upSlow "AAPL").1 = 502 :=
  ⟨by decide, by decide⟩

/-- C5 amended: every client call bounds its wait time to 10 time units and
raises the requests timeout exactly when the latency exceeds the bound; but
that timeout is not classified as an upstream error: the endpoints surface
it as an internal 500 rather than a 502. -/
theorem claim5_timeout_bounded_but_surfaces_500 :
    requestsTimeoutSeconds = 10 ∧
    (∀ (up : Upstream) (c : UpCall),
      requestsTimeoutSeconds < up.latency c →
      FMPClient.httpGet up c = .error .requestsTimeout) ∧
    (∀ (up : Upstream) (c : UpCall),
      up.latency c ≤ requestsTimeoutSeconds →
      ¬ FMPClient.httpGet up c = .error .requestsTimeout) ∧
    (∀ (up : Upstream) (q : String) (limit : Int),
      1 ≤ q.length → 1 ≤ limit → limit ≤ 50 →
      requestsTimeoutSeconds <
        up.latency (UpCall.searchSymbol q limit "NASDAQ,NYSE,AMEX") →
      (search_companies up q limit).1 = Outcome.internal500) ∧
    (∀ (up : Upstream) (symbol : String),
      requestsTimeoutSeconds < up.latency (UpCall.profile (pyUpper symbol)) →
      (company_snapshot up symbol).1 = Outcome.internal500) ∧
    (∀ (up : Upstream) (symbol : String) (years : Int),
      1 ≤ years → years ≤ 20 →
      requestsTimeoutSeconds <
        up.latency (UpCall.incomeStatement (pyUpper symbol) "annual" years) →
      (company_history up symbol years).1 = Outcome.internal500) := by
  refine ⟨rfl, ?_, ?_, ?_, ?_, ?_⟩
  · intro up c h
    exact httpGet_timeout h
  · intro up c h hcon
    rcases httpGet_no_timeout h with h1 | h1 <;> rw [h1] at hcon <;>
      simp at hcon
  · intro up q limit hq hl1 hl2 h
    have h1 : FMPClient.search_symbol up q limit =
        Except.error PyExc.requestsTimeout := httpGet_timeout h
    simp [search_companies, hq, hl1, hl2, h1, dispatch]
  · intro up symbol h
    have h1 : FMPClient.get_company_profile up symbol =
        Except.error PyExc.requestsTimeout := httpGet_timeout h
    simp [company_snapshot, h1, dispatch]
  · intro up symbol years hy1 hy2 h
    have h1 : FMPClient.get_income_statement up symbol "annual" years =
        Except.error PyExc.requestsTimeout := httpGet_timeout h
    simp [company_history, hy1, hy2, h1, dispatch]

theorem claim5_witness :
    FMPClient.httpGet upSlow (UpCall.profile "AAPL") =
        Except.error PyExc.requestsTimeout ∧
      (search_companies upSlow "apple" 10).1 = Outcome.internal500 ∧
      (company_history upSlow "AAPL" 5).1 = Outcome.internal500 :=
  ⟨claim5_timeout_bounded_but_surfaces_500.2.1 upSlow (UpCall.profile "AAPL")
      (by decide),
    claim5_timeout_bounded_but_surfaces_500.2.2.2.1 upSlow "apple" 10
      (by decide) (by decide) (by decide) (by decide),
    claim5_timeout_bounded_but_surfaces_500.2.2.2.2.2 upSlow "AAPL" 5
      (by decide) (by decide) (by decide)⟩

theorem httpGet_error_form {up : Upstream} {c : UpCall} {e : PyExc}
    (h : FMPClient.httpGet up c = .error e) :
    e = .requestsTimeout ∨ ∃ m, e = .runtimeError m := by
  rcases httpGet_cases up c with h1 | h1 | h1 <;> rw [h1] at h
  · cases h
  · injection h with h2
    exact Or.inl h2.symm
  · injection h with h2
    exact Or.inr ⟨fmpErrorMessage (up.response c), h2.symm⟩

theorem search_statusCode_mem (up : Upstream) (q : String) (limit : Int) :
    Outcome.statusCode (search_companies up q limit).1 ∈
      ([200, 422, 500, 502] : List Int) := by
  unfold search_companies
  split
  · simp [Outcome.statusCode]
  · rcases h : FMPClient.search_symbol up q limit with e | raw
    · rcases httpGet_error_form h with he | ⟨m, he⟩ <;> subst he <;>
        simp [dispatch, Outcome.statusCode]
    · rcases hb : buildSearchItems raw with e2 | items
      · have hval := buildSearchItems_error hb
        subst hval
        simp [hb, dispatch, Outcome.statusCode]
      · simp [hb, Outcome.statusCode]

theorem history_statusCode_mem (up : Upstream) (symbol : String)
    (years : Int) :
    Outcome.statusCode (company_history up symbol years).1 ∈
      ([200, 404, 422, 500, 502] : List Int) := by
  unfold company_history
  split
  · simp [Outcome.statusCode]
  · rcases h : FMPClient.get_income_statement up symbol "annual" years
        with e | rows
    · rcases httpGet_error_form h with he | ⟨m, he⟩ <;> subst he <;>
        simp [dispatch, Outcome.statusCode]
    · rcases rows with _ | ⟨r0, rs⟩
      · simp [Outcome.statusCode]
      · rcases hb : buildHistoryPoints (r0 :: rs) with e2 | pts
        · have hval := buildHistoryPoints_error hb
          subst hval
          simp [hb, dispatch, Outcome.statusCode]
        · simp [hb, Outcome.statusCode]

theorem snapshot_statusCode_mem (up : Upstream) (symbol : String) :
    Outcome.statusCode (company_snapshot up symbol).1 ∈
      ([200, 404, 500, 502] : List Int) := by
  unfold company_snapshot
  rcases hp : FMPClient.get_company_profile up symbol with e | profiles
  · rcases httpGet_error_form hp with he | ⟨m, he⟩ <;> subst he <;>
      simp [dispatch, Outcome.statusCode]
  · rcases profiles with _ | ⟨p, ps⟩
    · simp [Outcome.statusCode]
    · rcases hi : FMPClient.get_income_statement up symbol "annual" 1
          with e | li
      · rcases httpGet_error_form hi with he | ⟨m, he⟩ <;> subst he <;>
          simp [dispatch, Outcome.statusCode]
      · rcases hb : FMPClient.get_balance_sheet up symbol "annual" 1
            with e | lb
        · rcases httpGet_error_form hb with he | ⟨m, he⟩ <;> subst he <;>
            simp [dispatch, Outcome.statusCode]
        · rcases hc : FMPClient.get_cash_flow up symbol "annual" 1
              with e | lc
          · rcases httpGet_error_form hc with he | ⟨m, he⟩ <;> subst he <;>
              simp [dispatch, Outcome.statusCode]
          · simp [Outcome.statusCode]

/-- C6 counterexample: a search whose upstream record lacks both name
fields makes the pydantic response-model construction fail; that failure
surfaces as an internal 500, which is none of the three documented kinds
(4xx validation, 502 upstream, 404 not-found). -/
theorem claim6_counterexample :
    (search_companies upNoName "apple" 10).1 = Outcome.internal500 ∧
      Outcome.statusCode (search_companies upNoName "apple" 10).1 = 500 ∧
      ¬(Outcome.statusCode (search_companies upNoName "apple" 10).1 = 404 ∨
        Outcome.statusCode (search_companies upNoName "apple" 10).1 = 502 ∨
        (400 ≤ Outcome.statusCode (search_companies upNoName "apple" 10).1 ∧
          Outcome.statusCode (search_companies upNoName "apple" 10).1 < 500)) :=
  ⟨by decide, by decide, by decide⟩

/-- C6 amended: every outcome of the three endpoints is a 200, a 422
request-validation error, a 404 not-found, a 502 upstream error, or an
internal 500; and when no upstream call exceeds the timeout bound and the
returned shapes satisfy the response models (search records with a symbol
and a usable name, history rows with a date), the internal 500 cannot
occur, leaving exactly the three documented kinds. -/
theorem claim6_error_taxonomy_amended (up : Upstream) (q symbol : String)
    (limit years : Int) :
    (Outcome.statusCode (search_companies up q limit).1 ∈
      ([200, 422, 500, 502] : List Int)) ∧
    (Outcome.statusCode (company_history up symbol years).1 ∈
      ([200, 404, 422, 500, 502] : List Int)) ∧
    (Outcome.statusCode (company_snapshot up symbol).1 ∈
      ([200, 404, 500, 502] : List Int)) ∧
    (up.latency (UpCall.searchSymbol q limit "NASDAQ,NYSE,AMEX") ≤
        requestsTimeoutSeconds →
      (∀ rec ∈ (up.response
          (UpCall.searchSymbol q limit "NASDAQ,NYSE,AMEX")).json,
        (RawRecord.get rec "symbol").isSome = true ∧
        isStrOpt (RawRecord.get rec "name") = true ∧
        (specFallback (RawRecord.get rec "name")
          (RawRecord.get rec "companyName")).isSome = true) →
      Outcome.statusCode (search_companies up q limit).1 ∈
        ([200, 422, 502] : List Int)) ∧
    (up.latency (UpCall.incomeStatement (pyUpper symbol) "annual" years) ≤
        requestsTimeoutSeconds →
      (∀ row ∈ (up.response
          (UpCall.incomeStatement (pyUpper symbol) "annual" years)).json,
        (RawRecord.get row "date").isSome = true) →
      Outcome.statusCode (company_history up symbol years).1 ∈
        ([200, 404, 422, 502] : List Int)) ∧
    (up.latency (UpCall.profile (pyUpper symbol)) ≤ requestsTimeoutSeconds →
      up.latency (UpCall.incomeStatement (pyUpper symbol) "annual" 1) ≤
        requestsTimeoutSeconds →
      up.latency (UpCall.balanceSheet (pyUpper symbol) "annual" 1) ≤
        requestsTimeoutSeconds →
      up.latency (UpCall.cashFlow (pyUpper symbol) "annual" 1) ≤
        requestsTimeoutSeconds →
      Outcome.statusCode (company_snapshot up symbol).1 ∈
        ([200, 404, 502] : List Int)) := by
  refine ⟨search_statusCode_mem up q limit,
    history_statusCode_mem up symbol years,
    snapshot_statusCode_mem up symbol, ?_, ?_, ?_⟩
  · intro hlat hwf
    by_cases hv : 1 ≤ q.length ∧ 1 ≤ limit ∧ limit ≤ 50
    · rcases httpGet_no_timeout hlat with h | h
      · have h1 : FMPClient.search_symbol up q limit = Except.ok
            (up.response (UpCall.searchSymbol q limit "NASDAQ,NYSE,AMEX")).json :=
          h
        simp [search_companies, hv.1, hv.2.1, hv.2.2, h1,
          buildSearchItems_ok hwf, Outcome.statusCode]
      · have h1 : FMPClient.search_symbol up q limit = Except.error
            (.runtimeError (fmpErrorMessage
              (up.response (UpCall.searchSymbol q limit "NASDAQ,NYSE,AMEX")))) :=
          h
        simp [search_companies, hv.1, hv.2.1, hv.2.2, h1, dispatch,
          Outcome.statusCode]
    · rw [search_companies, if_pos]
      · simp [Outcome.statusCode]
      · exact hv
  · intro hlat hdates
    by_cases hv : 1 ≤ years ∧ years ≤ 20
    · rcases httpGet_no_timeout hlat with h | h
      · have h1 : FMPClient.get_income_statement up symbol "annual" years =
            Except.ok (up.response
              (UpCall.incomeStatement (pyUpper symbol) "annual" years)).json :=
          h
        rcases hjson : (up.response
            (UpCall.incomeStatement (pyUpper symbol) "annual" years)).json
            with _ | ⟨r0, rs⟩
        · rw [hjson] at h1
          simp [company_history, hv.1, hv.2, h1, Outcome.statusCode]
        · rw [hjson] at h1
          rw [hjson] at hdates
          simp [company_history, hv.1, hv.2, h1,
            buildHistoryPoints_ok hdates, Outcome.statusCode]
      · have h1 : FMPClient.get_income_statement up symbol "annual" years =
            Except.error (.runtimeError (fmpErrorMessage
              (up.response
                (UpCall.incomeStatement (pyUpper symbol) "annual" years)))) :=
          h
        simp [company_history, hv.1, hv.2, h1, dispatch, Outcome.statusCode]
    · rw [company_history, if_pos]
      · simp [Outcome.statusCode]
      · exact hv
  · intro hl1 hl2 hl3 hl4
    rcases httpGet_no_timeout hl1 with h | h
    case inr =>
      have h1 : FMPClient.get_company_profile up symbol = Except.error
          (.runtimeError (fmpErrorMessage
            (up.response (UpCall.profile (pyUpper symbol))))) := h
      simp [company_snapshot, h1, dispatch, Outcome.statusCode]
    case inl =>
      have h1 : FMPClient.get_company_profile up symbol = Except.ok
          (up.response (UpCall.profile (pyUpper symbol))).json := h
      rcases hjson : (up.response (UpCall.profile (pyUpper symbol))).json
          with _ | ⟨p, ps⟩
      · rw [hjson] at h1
        simp [company_snapshot, h1, Outcome.statusCode]
      · rw [hjson] at h1
        rcases httpGet_no_timeout hl2 with h2 | h2
        case inr =>
          have h2b : FMPClient.get_income_statement up symbol "annual" 1 =
              Except.error (.runtimeError (fmpErrorMessage (up.response
                (UpCall.incomeStatement (pyUpper symbol) "annual" 1)))) := h2
          simp [company_snapshot, h1, h2b, dispatch, Outcome.statusCode]
        case inl =>
          have h2b : FMPClient.get_income_statement up symbol "annual" 1 =
              Except.ok (up.response
                (UpCall.incomeStatement (pyUpper symbol) "annual" 1)).json := h2
          rcases httpGet_no_timeout hl3 with h3 | h3
          case inr =>
            have h3b : FMPClient.get_balance_sheet up symbol "annual" 1 =
                Except.error (.runtimeError (fmpErrorMessage (up.response
                  (UpCall.balanceSheet (pyUpper symbol) "annual" 1)))) := h3
            simp [company_snapshot, h1, h2b, h3b, dispatch, Outcome.statusCode]
          case inl =>
            have h3b : FMPClient.get_balance_sheet up symbol "annual" 1 =
                Except.ok (up.response
                  (UpCall.balanceSheet (pyUpper symbol) "annual" 1)).json := h3
            rcases httpGet_no_timeout hl4 with h4 | h4
            case inr =>
              have h4b : FMPClient.get_cash_flow up symbol "annual" 1 =
                  Except.error (.runtimeError (fmpErrorMessage (up.response
                    (UpCall.cashFlow (pyUpper symbol) "annual" 1)))) := h4
              simp [company_snapshot, h1, h2b, h3b, h4b, dispatch,
                Outcome.statusCode]
            case inl =>
              have h4b : FMPClient.get_cash_flow up symbol "annual" 1 =
                  Except.ok (up.response
                    (UpCall.cashFlow (pyUpper symbol) "annual" 1)).json := h4
              simp [company_snapshot, h1, h2b, h3b, h4b, Outcome.statusCode]

theorem claim6_witness :
    Outcome.statusCode (search_companies upSearchExample "apple" 10).1 ∈
        ([200, 422, 502] : List Int) ∧
      Outcome.statusCode (company_history upTTM "AAPL" 5).1 ∈
        ([200, 404, 422, 502] : List Int) ∧
      Outcome.statusCode (company_snapshot upDates "AAPL").1 ∈
        ([200, 404, 502] : List Int) :=
  ⟨(claim6_error_taxonomy_amended upSearchExample "apple" "x" 10 5).2.2.2.1
      (by decide) (by decide),
    (claim6_error_taxonomy_amended upTTM "q" "AAPL" 10 5).2.2.2.2.1
      (by decide) (by decide),
    (claim6_error_taxonomy_amended upDates "q" "AAPL" 10 5).2.2.2.2.2
      (by decide) (by decide) (by decide) (by decide)⟩

end Fmp
